import Mathlib

/-!
Shallow embedding of `src/rmw_fastrtps_shared_cpp/src/custom_subscriber_info.cpp`
(the `SubListener` event-aggregation and callback-notification core).

Modelling conventions:
* All status counters in the C++ code are `int32_t` fields of the Fast DDS /
  rmw status structures.  Signed overflow is undefined behaviour in C++, so
  the defined executions of the program are modelled exactly by unbounded
  `Int` arithmetic.
* The callback pointer `rmw_event_callback_t` and the `const void *` user
  data are opaque at this layer; they are modelled as `Option Nat` (with
  `none` standing for a null pointer).  A callback invocation
  `cb(user_data, count)` is recorded as an `Invocation` value in the list of
  invocations returned by each operation, in program order.
* `deadline_changes_` and `liveliness_changes_` are `std::atomic_bool`
  accessed with relaxed ordering in the code; in this sequential embedding
  they are plain `Bool` fields.
* The mutexes serialise the operations; the sequential state-transition
  functions below model the atomic effect of each whole operation.  The lock
  acquisition/release structure itself is modelled separately as an explicit
  event trace (`LockStep`) for the lock-discipline claims.
-/

namespace RmwFastrtps

/-- Status value for the requested-deadline-missed event, with the fields the
code reads and writes (`total_count`, `total_count_change`).  The same shape
serves as the transport-supplied update (`status` argument), the internal
record `requested_deadline_missed_status_`, and the consumer output
`rmw_requested_deadline_missed_status_t`. -/
structure RequestedDeadlineMissedStatus where
  total_count : Int
  total_count_change : Int
deriving DecidableEq, Repr

/-- Status value for the liveliness-changed event, with the fields the code
reads and writes.  Serves as transport update, internal record
`liveliness_changed_status_` and consumer output
`rmw_liveliness_changed_status_t`. -/
structure LivelinessChangedStatus where
  alive_count : Int
  not_alive_count : Int
  alive_count_change : Int
  not_alive_count_change : Int
deriving DecidableEq, Repr

/-- The rmw event-type enumeration, restricted to the members this
translation unit mentions plus representative unsupported members (the real
enumeration has further members; any member other than the two handled in
the `switch` statements behaves like the `default` case). -/
inductive rmw_event_type_t
  | RMW_EVENT_LIVELINESS_CHANGED
  | RMW_EVENT_REQUESTED_DEADLINE_MISSED
  | RMW_EVENT_LIVELINESS_LOST
  | RMW_EVENT_OFFERED_DEADLINE_MISSED
  | RMW_EVENT_INVALID
deriving DecidableEq, Repr

/-- A recorded synchronous callback invocation `cb(data, count)`:
which callback was invoked, the user-data argument, and the count. -/
structure Invocation where
  cb : Nat
  data : Option Nat
  count : Nat
deriving DecidableEq, Repr

/-- The mutable state of a `SubListener`: the two per-kind status records,
the two per-kind unread flags, and the callback-dispatcher state
(`listener_callback_`, `user_data_`, `unread_events_count_`). -/
structure SubListener where
  requested_deadline_missed_status_ : RequestedDeadlineMissedStatus
  liveliness_changed_status_ : LivelinessChangedStatus
  deadline_changes_ : Bool
  liveliness_changes_ : Bool
  listener_callback_ : Option Nat
  user_data_ : Option Nat
  unread_events_count_ : Nat
deriving DecidableEq, Repr

/-- The trailing callback block shared verbatim by both record handlers
(lines 46-53 and 75-82 of the source):
under `listener_callback_mutex_`, `if(listener_callback_)` invoke
`listener_callback_(user_data_, 1)`, else `unread_events_count_++`. -/
def dispatchEvent (s : SubListener) : SubListener × List Invocation :=
  match s.listener_callback_ with
  | some cb => (s, [{ cb := cb, data := s.user_data_, count := 1 }])
  | none => ({ s with unread_events_count_ := s.unread_events_count_ + 1 }, [])

/-- Embedding of `SubListener::on_requested_deadline_missed` (source lines
28-54): assign the absolute field `total_count`, accumulate the delta field
`total_count_change`, store `true` into `deadline_changes_`, then run the
callback block. -/
def on_requested_deadline_missed (s : SubListener)
    (status : RequestedDeadlineMissedStatus) : SubListener × List Invocation :=
  let s1 : SubListener :=
    { s with
      requested_deadline_missed_status_ :=
        { total_count := status.total_count,
          total_count_change :=
            s.requested_deadline_missed_status_.total_count_change
              + status.total_count_change },
      deadline_changes_ := true }
  dispatchEvent s1

/-- Embedding of `SubListener::on_liveliness_changed` (source lines 56-83):
assign the absolute fields `alive_count` and `not_alive_count`, accumulate
the delta fields `alive_count_change` and `not_alive_count_change`, store
`true` into `liveliness_changes_`, then run the callback block. -/
def on_liveliness_changed (s : SubListener)
    (status : LivelinessChangedStatus) : SubListener × List Invocation :=
  let s1 : SubListener :=
    { s with
      liveliness_changed_status_ :=
        { alive_count := status.alive_count,
          not_alive_count := status.not_alive_count,
          alive_count_change :=
            s.liveliness_changed_status_.alive_count_change
              + status.alive_count_change,
          not_alive_count_change :=
            s.liveliness_changed_status_.not_alive_count_change
              + status.not_alive_count_change },
      liveliness_changes_ := true }
  dispatchEvent s1

/-- Embedding of `SubListener::hasEvent` (source lines 85-97).  The leading
`assert(is_event_supported(event_type))` is a debug-build-only check and is
not part of the release-build state transition; the `switch` falls through
to `return false` for any other member. -/
def hasEvent (s : SubListener) (event_type : rmw_event_type_t) : Bool :=
  match event_type with
  | .RMW_EVENT_LIVELINESS_CHANGED => s.liveliness_changes_
  | .RMW_EVENT_REQUESTED_DEADLINE_MISSED => s.deadline_changes_
  | _ => false

/-- Embedding of `SubListener::eventSetExecutorCallback` (source lines
99-118).  When `callback` is non-null: if `unread_events_count_` is nonzero,
invoke `callback(user_data, unread_events_count_)` and zero the counter;
then store `user_data` and `callback`.  When `callback` is null: clear both
`user_data_` and `listener_callback_`. -/
def eventSetExecutorCallback (s : SubListener) (user_data : Option Nat)
    (callback : Option Nat) : SubListener × List Invocation :=
  match callback with
  | some cb =>
    let invs : List Invocation :=
      if s.unread_events_count_ ≠ 0 then
        [{ cb := cb, data := user_data, count := s.unread_events_count_ }]
      else []
    let s1 : SubListener :=
      if s.unread_events_count_ ≠ 0 then { s with unread_events_count_ := 0 }
      else s
    ({ s1 with user_data_ := user_data, listener_callback_ := some cb }, invs)
  | none =>
    ({ s with user_data_ := none, listener_callback_ := none }, [])

/-- Output written through the `void * event_info` pointer by
`takeNextEvent`, tagged by the static cast the code performs. -/
inductive EventOut
  | liveliness (st : LivelinessChangedStatus)
  | deadline (st : RequestedDeadlineMissedStatus)
deriving DecidableEq, Repr

/-- Embedding of `SubListener::takeNextEvent` (source lines 120-149).  The
C++ function writes through `event_info` and returns a `bool`; here the
output is `some out` when the function returns `true` and `none` when it
returns `false` (the `default` case, which performs no mutation).  As in
`hasEvent`, the debug-only `assert` is not part of the state transition.
For a supported kind the current record is copied out, the delta fields of
that record are zeroed, and its unread flag is cleared. -/
def takeNextEvent (s : SubListener) (event_type : rmw_event_type_t) :
    SubListener × Option EventOut :=
  match event_type with
  | .RMW_EVENT_LIVELINESS_CHANGED =>
    let out := s.liveliness_changed_status_
    ({ s with
        liveliness_changed_status_ :=
          { out with alive_count_change := 0, not_alive_count_change := 0 },
        liveliness_changes_ := false },
      some (.liveliness out))
  | .RMW_EVENT_REQUESTED_DEADLINE_MISSED =>
    let out := s.requested_deadline_missed_status_
    ({ s with
        requested_deadline_missed_status_ := { out with total_count_change := 0 },
        deadline_changes_ := false },
      some (.deadline out))
  | _ => (s, none)

/-- True exactly for the event kinds handled by the `switch` statements of
`hasEvent` and `takeNextEvent` (the kinds this listener supports). -/
def supportedKind : rmw_event_type_t → Bool
  | .RMW_EVENT_LIVELINESS_CHANGED => true
  | .RMW_EVENT_REQUESTED_DEADLINE_MISSED => true
  | _ => false

/-- A record call of either kind, carrying the transport-supplied status. -/
inductive RecordEvent
  | deadline (st : RequestedDeadlineMissedStatus)
  | liveliness (st : LivelinessChangedStatus)
deriving DecidableEq, Repr

/-- Apply one record call to the state. -/
def applyRecord (s : SubListener) : RecordEvent → SubListener × List Invocation
  | .deadline st => on_requested_deadline_missed s st
  | .liveliness st => on_liveliness_changed s st

/-- Run a sequence of record calls, concatenating the callback invocations
they perform, in order. -/
def runRecords (s : SubListener) : List RecordEvent → SubListener × List Invocation
  | [] => (s, [])
  | e :: rest =>
    let p := applyRecord s e
    let q := runRecords p.1 rest
    (q.1, p.2 ++ q.2)

/-- Run a sequence of deadline-missed record calls (state only). -/
def runDeadline (s : SubListener) (l : List RequestedDeadlineMissedStatus) :
    SubListener :=
  l.foldl (fun s st => (on_requested_deadline_missed s st).1) s

/-- Run a sequence of liveliness-changed record calls (state only). -/
def runLiveliness (s : SubListener) (l : List LivelinessChangedStatus) :
    SubListener :=
  l.foldl (fun s st => (on_liveliness_changed s st).1) s

/-- The three mutexes named in the source file:
`internalMutex_` (data-protection lock), `conditionMutex_` (the externally
attached wait-coordination lock) and `listener_callback_mutex_` (the
callback-dispatcher lock). -/
inductive LockId
  | internalMutex_
  | conditionMutex_
  | listener_callback_mutex_
deriving DecidableEq, Repr

/-- One step in the lock/action trace of an operation. -/
inductive LockStep
  | acq (l : LockId)
  | rel (l : LockId)
  | updateStatus
  | notifyDispatch
deriving DecidableEq, Repr

/-- Lock/action trace of a record handler; the two handlers
`on_requested_deadline_missed` (lines 28-54) and `on_liveliness_changed`
(lines 56-83) have the identical lock structure.  In source order:
`std::lock_guard lock(internalMutex_)` (scope: the whole function body);
`ConditionalScopedLock clock(conditionMutex_, conditionVariable_)` (scope:
rest of the body) — modelled from the spec where its class body is not in
src/: a scoped acquisition of the wait-coordination lock that is skipped
when no such lock is attached (the `hasConditionMutex` parameter) and is
released on scope exit; the status/flag writes; then
`std::unique_lock lock_mutex(listener_callback_mutex_)` (scope: rest of the
body) around the callback-or-count block.  The three guards are destroyed
in reverse declaration order when the function returns. -/
def recordLockTrace (hasConditionMutex : Bool) : List LockStep :=
  [.acq .internalMutex_]
    ++ (if hasConditionMutex then [.acq .conditionMutex_] else [])
    ++ [.updateStatus]
    ++ [.acq .listener_callback_mutex_, .notifyDispatch,
        .rel .listener_callback_mutex_]
    ++ (if hasConditionMutex then [.rel .conditionMutex_] else [])
    ++ [.rel .internalMutex_]

/-- Whether lock `l` is held after executing the trace `tr` from the
all-released state. -/
def heldAfter (tr : List LockStep) (l : LockId) : Bool :=
  tr.foldl
    (fun h step =>
      match step with
      | .acq l2 => if l2 = l then true else h
      | .rel l2 => if l2 = l then false else h
      | _ => h)
    false

/-- True when at some point of the trace the dispatcher lock
`listener_callback_mutex_` is held simultaneously with `internalMutex_` or
`conditionMutex_`. -/
def dispatcherHeldWithDataLock (tr : List LockStep) : Bool :=
  (List.range (tr.length + 1)).any fun n =>
    heldAfter (tr.take n) .listener_callback_mutex_
      && (heldAfter (tr.take n) .internalMutex_
            || heldAfter (tr.take n) .conditionMutex_)

/-- True when every `notifyDispatch` step of the trace happens while lock
`l` is held. -/
def notifyStepsUnder (tr : List LockStep) (l : LockId) : Bool :=
  (List.range tr.length).all fun n =>
    match tr.get? n with
    | some .notifyDispatch => heldAfter (tr.take n) l
    | _ => true

/-- Dispatcher-state invariant of §3 of the spec: the buffered unread-event
counter is zero whenever a callback is registered. -/
def eventInvariant (s : SubListener) : Prop :=
  s.listener_callback_ ≠ none → s.unread_events_count_ = 0

/-- A freshly constructed listener: zero-initialised status records, both
unread flags cleared, no callback registered, empty buffered counter. -/
def sampleState : SubListener :=
  { requested_deadline_missed_status_ := { total_count := 0, total_count_change := 0 },
    liveliness_changed_status_ :=
      { alive_count := 0, not_alive_count := 0,
        alive_count_change := 0, not_alive_count_change := 0 },
    deadline_changes_ := false,
    liveliness_changes_ := false,
    listener_callback_ := none,
    user_data_ := none,
    unread_events_count_ := 0 }

/-- A listener state with a callback (id 7) and user data (id 5) registered. -/
def sampleStateCb : SubListener :=
  { sampleState with listener_callback_ := some 7, user_data_ := some 5 }

/-- A sample transport update for the deadline-missed kind. -/
def sampleDeadlineStatus : RequestedDeadlineMissedStatus :=
  { total_count := 5, total_count_change := 5 }

/-- A sample transport update for the liveliness-changed kind. -/
def sampleLivelinessStatus : LivelinessChangedStatus :=
  { alive_count := 3, not_alive_count := 1,
    alive_count_change := 1, not_alive_count_change := 0 }

section StepLemmas

/-- The record handlers never modify the dispatcher registration fields;
a record call with no callback registered performs no invocation and
increments the buffered counter by one. -/
theorem applyRecord_no_callback (s : SubListener) (e : RecordEvent)
    (h : s.listener_callback_ = none) :
    (applyRecord s e).2 = []
      ∧ (applyRecord s e).1.listener_callback_ = none
      ∧ (applyRecord s e).1.user_data_ = s.user_data_
      ∧ (applyRecord s e).1.unread_events_count_ = s.unread_events_count_ + 1 := by
  cases e <;>
    simp [applyRecord, on_requested_deadline_missed, on_liveliness_changed,
      dispatchEvent, h]

/-- A record call with a callback registered invokes it once with
`(user_data_, 1)`, leaves the registration fields unchanged, and does not
touch the buffered counter. -/
theorem applyRecord_with_callback (s : SubListener) (e : RecordEvent) (cb : Nat)
    (h : s.listener_callback_ = some cb) :
    (applyRecord s e).2 = [{ cb := cb, data := s.user_data_, count := 1 }]
      ∧ (applyRecord s e).1.listener_callback_ = some cb
      ∧ (applyRecord s e).1.user_data_ = s.user_data_
      ∧ (applyRecord s e).1.unread_events_count_ = s.unread_events_count_ := by
  cases e <;>
    simp [applyRecord, on_requested_deadline_missed, on_liveliness_changed,
      dispatchEvent, h]

/-- Effect of one deadline-missed record on its own status record:
the absolute field is overwritten, the delta field accumulated. -/
theorem deadline_step (s : SubListener) (st : RequestedDeadlineMissedStatus) :
    (on_requested_deadline_missed s st).1.requested_deadline_missed_status_ =
      { total_count := st.total_count,
        total_count_change :=
          s.requested_deadline_missed_status_.total_count_change
            + st.total_count_change } := by
  cases h : s.listener_callback_ <;>
    simp [on_requested_deadline_missed, dispatchEvent, h]

/-- Effect of one liveliness-changed record on its own status record:
absolute fields overwritten, delta fields accumulated. -/
theorem liveliness_step (s : SubListener) (st : LivelinessChangedStatus) :
    (on_liveliness_changed s st).1.liveliness_changed_status_ =
      { alive_count := st.alive_count,
        not_alive_count := st.not_alive_count,
        alive_count_change :=
          s.liveliness_changed_status_.alive_count_change + st.alive_count_change,
        not_alive_count_change :=
          s.liveliness_changed_status_.not_alive_count_change
            + st.not_alive_count_change } := by
  cases h : s.listener_callback_ <;>
    simp [on_liveliness_changed, dispatchEvent, h]

end StepLemmas

/-- Claim C2, counterexample: in the record handlers the dispatcher lock
`listener_callback_mutex_` is acquired while `internalMutex_` (and, when
attached, `conditionMutex_`) is still held, because the enclosing
`lock_guard` and `ConditionalScopedLock` scopes extend to the end of the
function body; so the claimed disjointness fails on the handlers' trace. -/
theorem claim_C2_counterexample :
    dispatcherHeldWithDataLock (recordLockTrace true) = true := by decide

/-- Claim C2, amended: in every record operation the callback-dispatcher
notification is performed under the dispatcher lock while the
data-protection lock `internalMutex_` (and, when a wait-coordination mutex
is attached, `conditionMutex_`) is still held; the dispatcher lock is the
innermost lock, and all locks are released by the time the handler
returns. -/
theorem claim_C2_amended : ∀ hasConditionMutex : Bool,
    dispatcherHeldWithDataLock (recordLockTrace hasConditionMutex) = true
      ∧ notifyStepsUnder (recordLockTrace hasConditionMutex)
          .listener_callback_mutex_ = true
      ∧ notifyStepsUnder (recordLockTrace hasConditionMutex)
          .internalMutex_ = true
      ∧ heldAfter (recordLockTrace hasConditionMutex) .internalMutex_ = false
      ∧ heldAfter (recordLockTrace hasConditionMutex) .conditionMutex_ = false
      ∧ heldAfter (recordLockTrace hasConditionMutex)
          .listener_callback_mutex_ = false := by
  intro b
  cases b <;> exact (by decide)

/-- Claim C6: `hasEvent k` is true in any state immediately following a
record call of kind `k`, and false in any state immediately following a
`takeNextEvent` of kind `k`: record stores `true` into the per-kind flag
and take stores `false`. -/
theorem claim_C6 (s : SubListener) (std : RequestedDeadlineMissedStatus)
    (stl : LivelinessChangedStatus) :
    hasEvent (on_requested_deadline_missed s std).1
        .RMW_EVENT_REQUESTED_DEADLINE_MISSED = true
      ∧ hasEvent (on_liveliness_changed s stl).1
          .RMW_EVENT_LIVELINESS_CHANGED = true
      ∧ hasEvent (takeNextEvent s .RMW_EVENT_REQUESTED_DEADLINE_MISSED).1
          .RMW_EVENT_REQUESTED_DEADLINE_MISSED = false
      ∧ hasEvent (takeNextEvent s .RMW_EVENT_LIVELINESS_CHANGED).1
          .RMW_EVENT_LIVELINESS_CHANGED = false := by
  cases h : s.listener_callback_ <;>
    simp [hasEvent, on_requested_deadline_missed, on_liveliness_changed,
      takeNextEvent, dispatchEvent, h]

/-- Claim C7: `takeNextEvent` on an event kind outside the two supported
kinds returns false (modelled as `none`) with the state unchanged, and on
every supported kind it returns true (modelled as `some`). -/
theorem claim_C7 (s : SubListener) (k : rmw_event_type_t) :
    (supportedKind k = false → takeNextEvent s k = (s, none))
      ∧ (supportedKind k = true → (takeNextEvent s k).2.isSome = true) := by
  cases k <;> simp [supportedKind, takeNextEvent]

/-- Claim C7 witness at a concrete unsupported kind (liveliness lost) and a
concrete supported kind (liveliness changed) on the fresh state. -/
theorem claim_C7_witness :
    takeNextEvent sampleState .RMW_EVENT_LIVELINESS_LOST = (sampleState, none)
      ∧ (takeNextEvent sampleState .RMW_EVENT_LIVELINESS_CHANGED).2.isSome
          = true :=
  ⟨(claim_C7 sampleState .RMW_EVENT_LIVELINESS_LOST).1 rfl,
    (claim_C7 sampleState .RMW_EVENT_LIVELINESS_CHANGED).2 rfl⟩

/-- Claim C10: per-kind isolation — each record handler and each supported
take leaves the other kind's status record and unread flag unchanged. -/
theorem claim_C10 (s : SubListener) (std : RequestedDeadlineMissedStatus)
    (stl : LivelinessChangedStatus) :
    (on_requested_deadline_missed s std).1.liveliness_changed_status_
        = s.liveliness_changed_status_
      ∧ (on_requested_deadline_missed s std).1.liveliness_changes_
          = s.liveliness_changes_
      ∧ (on_liveliness_changed s stl).1.requested_deadline_missed_status_
          = s.requested_deadline_missed_status_
      ∧ (on_liveliness_changed s stl).1.deadline_changes_ = s.deadline_changes_
      ∧ ((takeNextEvent s .RMW_EVENT_REQUESTED_DEADLINE_MISSED).1).liveliness_changed_status_
          = s.liveliness_changed_status_
      ∧ ((takeNextEvent s .RMW_EVENT_REQUESTED_DEADLINE_MISSED).1).liveliness_changes_
          = s.liveliness_changes_
      ∧ ((takeNextEvent s .RMW_EVENT_LIVELINESS_CHANGED).1).requested_deadline_missed_status_
          = s.requested_deadline_missed_status_
      ∧ (takeNextEvent s .RMW_EVENT_LIVELINESS_CHANGED).1.deadline_changes_
          = s.deadline_changes_ := by
  cases h : s.listener_callback_ <;>
    simp [on_requested_deadline_missed, on_liveliness_changed, takeNextEvent,
      dispatchEvent, h]

/-- Unfolding lemma for `runDeadline` on a cons. -/
theorem runDeadline_cons (s : SubListener) (a : RequestedDeadlineMissedStatus)
    (rest : List RequestedDeadlineMissedStatus) :
    runDeadline s (a :: rest)
      = runDeadline (on_requested_deadline_missed s a).1 rest := rfl

/-- Unfolding lemma for `runLiveliness` on a cons. -/
theorem runLiveliness_cons (s : SubListener) (a : LivelinessChangedStatus)
    (rest : List LivelinessChangedStatus) :
    runLiveliness s (a :: rest)
      = runLiveliness (on_liveliness_changed s a).1 rest := rfl

/-- Over any sequence of deadline-missed records, the delta field
accumulates: final value = initial value + sum of the supplied deltas. -/
theorem runDeadline_total_count_change (l : List RequestedDeadlineMissedStatus) :
    ∀ s : SubListener,
      (runDeadline s l).requested_deadline_missed_status_.total_count_change
        = s.requested_deadline_missed_status_.total_count_change
          + (l.map RequestedDeadlineMissedStatus.total_count_change).sum := by
  induction l with
  | nil => intro s; simp [runDeadline]
  | cons a rest ih =>
    intro s
    rw [runDeadline_cons, ih, deadline_step]
    simp
    ring

/-- Over any sequence of deadline-missed records, the absolute field ends at
the last supplied absolute value (or keeps its initial value when the
sequence is empty). -/
theorem runDeadline_total_count (l : List RequestedDeadlineMissedStatus) :
    ∀ s : SubListener,
      (runDeadline s l).requested_deadline_missed_status_.total_count
        = ((l.getLast?).map RequestedDeadlineMissedStatus.total_count).getD
            s.requested_deadline_missed_status_.total_count := by
  induction l with
  | nil => intro s; simp [runDeadline]
  | cons a rest ih =>
    intro s
    rw [runDeadline_cons, ih]
    cases rest with
    | nil => simp [deadline_step]
    | cons b r =>
      rw [List.getLast?_cons_cons]
      cases h : (b :: r).getLast? with
      | none => simp [List.getLast?_eq_none_iff] at h
      | some x => simp [h]

/-- Over any sequence of liveliness-changed records, the alive-count delta
field accumulates the supplied delta contributions. -/
theorem runLiveliness_alive_count_change (l : List LivelinessChangedStatus) :
    ∀ s : SubListener,
      (runLiveliness s l).liveliness_changed_status_.alive_count_change
        = s.liveliness_changed_status_.alive_count_change
          + (l.map LivelinessChangedStatus.alive_count_change).sum := by
  induction l with
  | nil => intro s; simp [runLiveliness]
  | cons a rest ih =>
    intro s
    rw [runLiveliness_cons, ih, liveliness_step]
    simp
    ring

/-- Over any sequence of liveliness-changed records, the not-alive-count
delta field accumulates the supplied delta contributions. -/
theorem runLiveliness_not_alive_count_change (l : List LivelinessChangedStatus) :
    ∀ s : SubListener,
      (runLiveliness s l).liveliness_changed_status_.not_alive_count_change
        = s.liveliness_changed_status_.not_alive_count_change
          + (l.map LivelinessChangedStatus.not_alive_count_change).sum := by
  induction l with
  | nil => intro s; simp [runLiveliness]
  | cons a rest ih =>
    intro s
    rw [runLiveliness_cons, ih, liveliness_step]
    simp
    ring

/-- Over any sequence of liveliness-changed records, the alive-count
absolute field ends at the last supplied absolute value. -/
theorem runLiveliness_alive_count (l : List LivelinessChangedStatus) :
    ∀ s : SubListener,
      (runLiveliness s l).liveliness_changed_status_.alive_count
        = ((l.getLast?).map LivelinessChangedStatus.alive_count).getD
            s.liveliness_changed_status_.alive_count := by
  induction l with
  | nil => intro s; simp [runLiveliness]
  | cons a rest ih =>
    intro s
    rw [runLiveliness_cons, ih]
    cases rest with
    | nil => simp [liveliness_step]
    | cons b r =>
      rw [List.getLast?_cons_cons]
      cases h : (b :: r).getLast? with
      | none => simp [List.getLast?_eq_none_iff] at h
      | some x => simp [h]

/-- Over any sequence of liveliness-changed records, the not-alive-count
absolute field ends at the last supplied absolute value. -/
theorem runLiveliness_not_alive_count (l : List LivelinessChangedStatus) :
    ∀ s : SubListener,
      (runLiveliness s l).liveliness_changed_status_.not_alive_count
        = ((l.getLast?).map LivelinessChangedStatus.not_alive_count).getD
            s.liveliness_changed_status_.not_alive_count := by
  induction l with
  | nil => intro s; simp [runLiveliness]
  | cons a rest ih =>
    intro s
    rw [runLiveliness_cons, ih]
    cases rest with
    | nil => simp [liveliness_step]
    | cons b r =>
      rw [List.getLast?_cons_cons]
      cases h : (b :: r).getLast? with
      | none => simp [List.getLast?_eq_none_iff] at h
      | some x => simp [h]

/-- Claim C1: no lost delta — starting from a state whose delta fields are
zero (as after construction or a take), a take after any sequence of record
calls of a kind returns delta fields equal to the sum of all the delta
contributions supplied by those record calls; the take output is exactly the
current status record, whose delta fields carry those sums. -/
theorem claim_C1 (s : SubListener) (ld : List RequestedDeadlineMissedStatus)
    (ll : List LivelinessChangedStatus)
    (hd : s.requested_deadline_missed_status_.total_count_change = 0)
    (ha : s.liveliness_changed_status_.alive_count_change = 0)
    (hn : s.liveliness_changed_status_.not_alive_count_change = 0) :
    (takeNextEvent (runDeadline s ld) .RMW_EVENT_REQUESTED_DEADLINE_MISSED).2
        = some (.deadline (runDeadline s ld).requested_deadline_missed_status_)
      ∧ (runDeadline s ld).requested_deadline_missed_status_.total_count_change
          = (ld.map RequestedDeadlineMissedStatus.total_count_change).sum
      ∧ (takeNextEvent (runLiveliness s ll) .RMW_EVENT_LIVELINESS_CHANGED).2
          = some (.liveliness (runLiveliness s ll).liveliness_changed_status_)
      ∧ (runLiveliness s ll).liveliness_changed_status_.alive_count_change
          = (ll.map LivelinessChangedStatus.alive_count_change).sum
      ∧ (runLiveliness s ll).liveliness_changed_status_.not_alive_count_change
          = (ll.map LivelinessChangedStatus.not_alive_count_change).sum := by
  refine ⟨rfl, ?_, rfl, ?_, ?_⟩
  · rw [runDeadline_total_count_change, hd, zero_add]
  · rw [runLiveliness_alive_count_change, ha, zero_add]
  · rw [runLiveliness_not_alive_count_change, hn, zero_add]

/-- Claim C1 witness: two deadline records with deltas 5 and 2 and two
liveliness records on a fresh state; the takes return the summed deltas. -/
theorem claim_C1_witness :
    (takeNextEvent
        (runDeadline sampleState
          [sampleDeadlineStatus, { total_count := 7, total_count_change := 2 }])
        .RMW_EVENT_REQUESTED_DEADLINE_MISSED).2
        = some (.deadline { total_count := 7, total_count_change := 7 })
      ∧ (takeNextEvent
          (runLiveliness sampleState
            [sampleLivelinessStatus,
              { alive_count := 4, not_alive_count := 2,
                alive_count_change := 2, not_alive_count_change := 1 }])
          .RMW_EVENT_LIVELINESS_CHANGED).2
          = some (.liveliness
              { alive_count := 4, not_alive_count := 2,
                alive_count_change := 3, not_alive_count_change := 1 }) :=
  ⟨(claim_C1 sampleState
      [sampleDeadlineStatus, { total_count := 7, total_count_change := 2 }]
      [sampleLivelinessStatus,
        { alive_count := 4, not_alive_count := 2,
          alive_count_change := 2, not_alive_count_change := 1 }]
      rfl rfl rfl).1,
    (claim_C1 sampleState
      [sampleDeadlineStatus, { total_count := 7, total_count_change := 2 }]
      [sampleLivelinessStatus,
        { alive_count := 4, not_alive_count := 2,
          alive_count_change := 2, not_alive_count_change := 1 }]
      rfl rfl rfl).2.2.1⟩

/-- Claim C5: absolute overwrite — after a nonempty sequence of record calls
of a kind, a take returns absolute fields equal to the most recently
recorded absolute values, independent of intermediate values; the take
output is exactly the current status record, whose absolute fields carry the
last supplied values. -/
theorem claim_C5 (s : SubListener) (ld : List RequestedDeadlineMissedStatus)
    (ll : List LivelinessChangedStatus) (hld : ld ≠ []) (hll : ll ≠ []) :
    (takeNextEvent (runDeadline s ld) .RMW_EVENT_REQUESTED_DEADLINE_MISSED).2
        = some (.deadline (runDeadline s ld).requested_deadline_missed_status_)
      ∧ (runDeadline s ld).requested_deadline_missed_status_.total_count
          = (ld.getLast hld).total_count
      ∧ (takeNextEvent (runLiveliness s ll) .RMW_EVENT_LIVELINESS_CHANGED).2
          = some (.liveliness (runLiveliness s ll).liveliness_changed_status_)
      ∧ (runLiveliness s ll).liveliness_changed_status_.alive_count
          = (ll.getLast hll).alive_count
      ∧ (runLiveliness s ll).liveliness_changed_status_.not_alive_count
          = (ll.getLast hll).not_alive_count := by
  refine ⟨rfl, ?_, rfl, ?_, ?_⟩
  · rw [runDeadline_total_count, List.getLast?_eq_getLast ld hld]
    simp
  · rw [runLiveliness_alive_count, List.getLast?_eq_getLast ll hll]
    simp
  · rw [runLiveliness_not_alive_count, List.getLast?_eq_getLast ll hll]
    simp

/-- Claim C5 witness: the same two-record sequences as for C1; the absolute
fields returned are those of the second (last) record call. -/
theorem claim_C5_witness :
    (runDeadline sampleState
        [sampleDeadlineStatus, { total_count := 7, total_count_change := 2 }]
      ).requested_deadline_missed_status_.total_count = 7
      ∧ (runLiveliness sampleState
          [sampleLivelinessStatus,
            { alive_count := 4, not_alive_count := 2,
              alive_count_change := 2, not_alive_count_change := 1 }]
        ).liveliness_changed_status_.alive_count = 4
      ∧ (runLiveliness sampleState
          [sampleLivelinessStatus,
            { alive_count := 4, not_alive_count := 2,
              alive_count_change := 2, not_alive_count_change := 1 }]
        ).liveliness_changed_status_.not_alive_count = 2 :=
  ⟨(claim_C5 sampleState
      [sampleDeadlineStatus, { total_count := 7, total_count_change := 2 }]
      [sampleLivelinessStatus,
        { alive_count := 4, not_alive_count := 2,
          alive_count_change := 2, not_alive_count_change := 1 }]
      (List.cons_ne_nil _ _) (List.cons_ne_nil _ _)).2.1,
    (claim_C5 sampleState
      [sampleDeadlineStatus, { total_count := 7, total_count_change := 2 }]
      [sampleLivelinessStatus,
        { alive_count := 4, not_alive_count := 2,
          alive_count_change := 2, not_alive_count_change := 1 }]
      (List.cons_ne_nil _ _) (List.cons_ne_nil _ _)).2.2.2.1,
    (claim_C5 sampleState
      [sampleDeadlineStatus, { total_count := 7, total_count_change := 2 }]
      [sampleLivelinessStatus,
        { alive_count := 4, not_alive_count := 2,
          alive_count_change := 2, not_alive_count_change := 1 }]
      (List.cons_ne_nil _ _) (List.cons_ne_nil _ _)).2.2.2.2⟩

/-- Claim C8: only `takeNextEvent` resets delta fields —
`eventSetExecutorCallback` never touches either status record, record calls
add to (never reset) the delta fields, a take zeroes exactly the taken
kind delta fields while keeping the absolute fields, and of two
back-to-back takes of the same kind the second returns all-zero delta
fields together with the unchanged absolute fields. -/
theorem claim_C8 (s : SubListener) (ud cb : Option Nat)
    (std : RequestedDeadlineMissedStatus) (stl : LivelinessChangedStatus) :
    (eventSetExecutorCallback s ud cb).1.requested_deadline_missed_status_
        = s.requested_deadline_missed_status_
      ∧ (eventSetExecutorCallback s ud cb).1.liveliness_changed_status_
          = s.liveliness_changed_status_
      ∧ ((on_requested_deadline_missed s std).1).requested_deadline_missed_status_.total_count_change
          = s.requested_deadline_missed_status_.total_count_change
            + std.total_count_change
      ∧ ((on_liveliness_changed s stl).1).liveliness_changed_status_.alive_count_change
          = s.liveliness_changed_status_.alive_count_change
            + stl.alive_count_change
      ∧ ((on_liveliness_changed s stl).1).liveliness_changed_status_.not_alive_count_change
          = s.liveliness_changed_status_.not_alive_count_change
            + stl.not_alive_count_change
      ∧ ((takeNextEvent s .RMW_EVENT_REQUESTED_DEADLINE_MISSED).1).requested_deadline_missed_status_
          = { total_count := s.requested_deadline_missed_status_.total_count,
              total_count_change := 0 }
      ∧ ((takeNextEvent s .RMW_EVENT_LIVELINESS_CHANGED).1).liveliness_changed_status_
          = { alive_count := s.liveliness_changed_status_.alive_count,
              not_alive_count := s.liveliness_changed_status_.not_alive_count,
              alive_count_change := 0, not_alive_count_change := 0 }
      ∧ (takeNextEvent (takeNextEvent s .RMW_EVENT_REQUESTED_DEADLINE_MISSED).1
            .RMW_EVENT_REQUESTED_DEADLINE_MISSED).2
          = some (.deadline
              { total_count := s.requested_deadline_missed_status_.total_count,
                total_count_change := 0 })
      ∧ (takeNextEvent (takeNextEvent s .RMW_EVENT_LIVELINESS_CHANGED).1
            .RMW_EVENT_LIVELINESS_CHANGED).2
          = some (.liveliness
              { alive_count := s.liveliness_changed_status_.alive_count,
                not_alive_count := s.liveliness_changed_status_.not_alive_count,
                alive_count_change := 0, not_alive_count_change := 0 }) := by
  refine ⟨?_, ?_, ?_, ?_, ?_, rfl, rfl, rfl, rfl⟩
  · cases cb with
    | none => rfl
    | some c =>
      by_cases h : s.unread_events_count_ = 0 <;>
        simp [eventSetExecutorCallback, h]
  · cases cb with
    | none => rfl
    | some c =>
      by_cases h : s.unread_events_count_ = 0 <;>
        simp [eventSetExecutorCallback, h]
  · rw [deadline_step]
  · rw [liveliness_step]
  · rw [liveliness_step]

/-- Claim C9: immediate delivery — with a callback registered, each record
handler performs exactly one synchronous invocation of that callback with
arguments `(user_data_, 1)` and leaves the buffered counter unchanged. -/
theorem claim_C9 (s : SubListener) (cb : Nat)
    (std : RequestedDeadlineMissedStatus) (stl : LivelinessChangedStatus)
    (h : s.listener_callback_ = some cb) :
    (on_requested_deadline_missed s std).2
        = [{ cb := cb, data := s.user_data_, count := 1 }]
      ∧ ((on_requested_deadline_missed s std).1).unread_events_count_
          = s.unread_events_count_
      ∧ (on_liveliness_changed s stl).2
          = [{ cb := cb, data := s.user_data_, count := 1 }]
      ∧ ((on_liveliness_changed s stl).1).unread_events_count_
          = s.unread_events_count_ := by
  simp [on_requested_deadline_missed, on_liveliness_changed, dispatchEvent, h]

/-- Claim C9 witness: on a state with callback 7 and user data 5 registered,
each record call produces exactly the invocation `(5, 1)` and keeps the
buffered counter at zero. -/
theorem claim_C9_witness :
    (on_requested_deadline_missed sampleStateCb sampleDeadlineStatus).2
        = [{ cb := 7, data := some 5, count := 1 }]
      ∧ ((on_requested_deadline_missed sampleStateCb sampleDeadlineStatus).1).unread_events_count_
          = 0
      ∧ (on_liveliness_changed sampleStateCb sampleLivelinessStatus).2
          = [{ cb := 7, data := some 5, count := 1 }]
      ∧ ((on_liveliness_changed sampleStateCb sampleLivelinessStatus).1).unread_events_count_
          = 0 :=
  claim_C9 sampleStateCb 7 sampleDeadlineStatus sampleLivelinessStatus rfl

/-- While no callback is registered, a sequence of record calls performs no
invocation, keeps the registration fields unchanged, and adds exactly one
to the buffered counter per record call. -/
theorem runRecords_no_callback (l : List RecordEvent) :
    ∀ s : SubListener, s.listener_callback_ = none →
      (runRecords s l).2 = []
        ∧ (runRecords s l).1.listener_callback_ = none
        ∧ (runRecords s l).1.user_data_ = s.user_data_
        ∧ (runRecords s l).1.unread_events_count_
            = s.unread_events_count_ + l.length := by
  induction l with
  | nil => intro s h; exact ⟨rfl, h, rfl, rfl⟩
  | cons e rest ih =>
    intro s h
    obtain ⟨h1, h2, h3, h4⟩ := applyRecord_no_callback s e h
    obtain ⟨g1, g2, g3, g4⟩ := ih (applyRecord s e).1 h2
    refine ⟨?_, g2, ?_, ?_⟩
    · show (applyRecord s e).2 ++ (runRecords (applyRecord s e).1 rest).2 = []
      rw [h1, g1]
      rfl
    · show (runRecords (applyRecord s e).1 rest).1.user_data_ = s.user_data_
      rw [g3, h3]
    · show (runRecords (applyRecord s e).1 rest).1.unread_events_count_
        = s.unread_events_count_ + (e :: rest).length
      rw [g4, h4, List.length_cons]
      omega

/-- Claim C3: buffered-then-flushed notification — after N record calls in
the unregistered state (the state an explicit `setCallback(null)` leaves
behind, given the C4 invariant), registering a non-null callback invokes it
exactly once with the buffered count N (and not at all when N is zero),
synchronously inside the registration, resets the counter to zero, and a
subsequent record call triggers one invocation with count 1. -/
theorem claim_C3 (s s2 : SubListener) (ud : Option Nat) (cb : Nat)
    (l : List RecordEvent) (e : RecordEvent)
    (h1 : s.listener_callback_ = none) (h2 : s.unread_events_count_ = 0) :
    (runRecords s l).2 = []
      ∧ (runRecords s l).1.unread_events_count_ = l.length
      ∧ (eventSetExecutorCallback (runRecords s l).1 ud (some cb)).2
          = (if l.length = 0 then []
             else [{ cb := cb, data := ud, count := l.length }])
      ∧ ((eventSetExecutorCallback (runRecords s l).1 ud (some cb)).1).unread_events_count_
          = 0
      ∧ (applyRecord (eventSetExecutorCallback (runRecords s l).1 ud (some cb)).1 e).2
          = [{ cb := cb, data := ud, count := 1 }]
      ∧ ((eventSetExecutorCallback s2 none none).1).listener_callback_ = none
      ∧ ((eventSetExecutorCallback s2 none none).1).user_data_ = none
      ∧ ((eventSetExecutorCallback s2 none none).1).unread_events_count_
          = s2.unread_events_count_ := by
  obtain ⟨g1, g2, g3, g4⟩ := runRecords_no_callback l s h1
  have hu : (runRecords s l).1.unread_events_count_ = l.length := by
    rw [g4, h2, Nat.zero_add]
  refine ⟨g1, hu, ?_, ?_, ?_, rfl, rfl, rfl⟩
  · by_cases hl : l.length = 0 <;> simp [eventSetExecutorCallback, hu, hl]
  · by_cases hl : l.length = 0 <;> simp [eventSetExecutorCallback, hu, hl]
  · exact (applyRecord_with_callback
      (eventSetExecutorCallback (runRecords s l).1 ud (some cb)).1 e cb rfl).1

/-- Claim C3 witness: three record calls on a fresh unregistered listener,
then registration of callback 7 with user data 5: one flush invocation with
count 3, counter reset, and the next record delivers count 1; unregistering
on a registered state clears both registration fields. -/
theorem claim_C3_witness :
    (runRecords sampleState
        [RecordEvent.deadline sampleDeadlineStatus,
          RecordEvent.liveliness sampleLivelinessStatus,
          RecordEvent.deadline { total_count := 6, total_count_change := 1 }]).2
        = []
      ∧ ((runRecords sampleState
          [RecordEvent.deadline sampleDeadlineStatus,
            RecordEvent.liveliness sampleLivelinessStatus,
            RecordEvent.deadline { total_count := 6, total_count_change := 1 }]).1).unread_events_count_
          = 3
      ∧ (eventSetExecutorCallback
          (runRecords sampleState
            [RecordEvent.deadline sampleDeadlineStatus,
              RecordEvent.liveliness sampleLivelinessStatus,
              RecordEvent.deadline { total_count := 6, total_count_change := 1 }]).1
          (some 5) (some 7)).2
          = [{ cb := 7, data := some 5, count := 3 }]
      ∧ ((eventSetExecutorCallback
          (runRecords sampleState
            [RecordEvent.deadline sampleDeadlineStatus,
              RecordEvent.liveliness sampleLivelinessStatus,
              RecordEvent.deadline { total_count := 6, total_count_change := 1 }]).1
          (some 5) (some 7)).1).unread_events_count_ = 0
      ∧ (applyRecord
          (eventSetExecutorCallback
            (runRecords sampleState
              [RecordEvent.deadline sampleDeadlineStatus,
                RecordEvent.liveliness sampleLivelinessStatus,
                RecordEvent.deadline { total_count := 6, total_count_change := 1 }]).1
            (some 5) (some 7)).1
          (RecordEvent.deadline sampleDeadlineStatus)).2
          = [{ cb := 7, data := some 5, count := 1 }]
      ∧ ((eventSetExecutorCallback sampleStateCb none none).1).listener_callback_
          = none
      ∧ ((eventSetExecutorCallback sampleStateCb none none).1).user_data_ = none
      ∧ ((eventSetExecutorCallback sampleStateCb none none).1).unread_events_count_
          = 0 :=
  claim_C3 sampleState sampleStateCb (some 5) 7
    [RecordEvent.deadline sampleDeadlineStatus,
      RecordEvent.liveliness sampleLivelinessStatus,
      RecordEvent.deadline { total_count := 6, total_count_change := 1 }]
    (RecordEvent.deadline sampleDeadlineStatus) rfl rfl

/-- Claim C4: dispatcher invariant — if the buffered counter is zero
whenever a callback is registered, that remains true after any record,
any registration change, and any take; moreover a record increments the
counter exactly when no callback is registered, and registering a non-null
callback always leaves the counter at zero. -/
theorem claim_C4 (s : SubListener) (e : RecordEvent) (ud cbOpt : Option Nat)
    (cb2 : Nat) (k : rmw_event_type_t) (h : eventInvariant s) :
    eventInvariant (applyRecord s e).1
      ∧ eventInvariant (eventSetExecutorCallback s ud cbOpt).1
      ∧ eventInvariant (takeNextEvent s k).1
      ∧ (s.listener_callback_ ≠ none →
          (applyRecord s e).1.unread_events_count_ = s.unread_events_count_)
      ∧ (s.listener_callback_ = none →
          (applyRecord s e).1.unread_events_count_ = s.unread_events_count_ + 1)
      ∧ ((eventSetExecutorCallback s ud (some cb2)).1).unread_events_count_
          = 0 := by
  refine ⟨?_, ?_, ?_, ?_, ?_, ?_⟩
  · cases hcb : s.listener_callback_ with
    | none =>
      obtain ⟨-, h2, -, -⟩ := applyRecord_no_callback s e hcb
      intro hx
      exact absurd h2 hx
    | some c =>
      obtain ⟨-, -, -, h4⟩ := applyRecord_with_callback s e c hcb
      intro _
      rw [h4]
      exact h (by simp [hcb])
  · cases cbOpt with
    | none => intro hx; exact absurd rfl hx
    | some c =>
      intro _
      by_cases hz : s.unread_events_count_ = 0 <;>
        simp [eventSetExecutorCallback, hz]
  · cases k <;> exact h
  · intro hx
    cases hcb : s.listener_callback_ with
    | none => exact absurd hcb hx
    | some c => exact (applyRecord_with_callback s e c hcb).2.2.2
  · intro hx
    exact (applyRecord_no_callback s e hx).2.2.2
  · by_cases hz : s.unread_events_count_ = 0 <;>
      simp [eventSetExecutorCallback, hz]

/-- Claim C4 witness: the invariant facts instantiated on the fresh state,
with a deadline record, an unregister request, and a registration of
callback 7. -/
theorem claim_C4_witness :
    eventInvariant (applyRecord sampleState
        (RecordEvent.deadline sampleDeadlineStatus)).1
      ∧ eventInvariant (eventSetExecutorCallback sampleState (some 5) none).1
      ∧ eventInvariant
          (takeNextEvent sampleState .RMW_EVENT_REQUESTED_DEADLINE_MISSED).1
      ∧ (sampleState.listener_callback_ ≠ none →
          ((applyRecord sampleState
            (RecordEvent.deadline sampleDeadlineStatus)).1).unread_events_count_
            = sampleState.unread_events_count_)
      ∧ (sampleState.listener_callback_ = none →
          ((applyRecord sampleState
            (RecordEvent.deadline sampleDeadlineStatus)).1).unread_events_count_
            = sampleState.unread_events_count_ + 1)
      ∧ ((eventSetExecutorCallback sampleState (some 5) (some 7)).1).unread_events_count_
          = 0 :=
  claim_C4 sampleState (RecordEvent.deadline sampleDeadlineStatus) (some 5)
    none 7 .RMW_EVENT_REQUESTED_DEADLINE_MISSED (fun _ => rfl)

end RmwFastrtps
